import Mathlib

/-!
Verification development for the execution-isolation core of the
ComfyUI-PyIsolated repository (`src/execution_wrapper.py`).

The Python functions are shallowly embedded as Lean functions.  Effectful
operations (filesystem probes, subprocess spawning, `pip` installs,
`json.loads`, `exec` of user code) are modelled by explicit "world"
records supplying the outcome of each external interaction, so that the
control flow of the Python source is translated faithfully while the
environment stays abstract.  The `hashlib.sha256` library call is
modelled by a full executable SHA-256 implementation over byte lists
(naturals below 256), with 32-bit words represented as naturals reduced
modulo 2^32; the implementation is exercised on concrete inputs in
several proofs below, so it matches real SHA-256 on those inputs or the
corresponding proofs would fail.
-/

namespace PyIsolated

/-! ## SHA-256 over byte lists (model of `hashlib.sha256`) -/

/-- Reduce a natural to a 32-bit word value. -/
def w32 (n : Nat) : Nat := n % 4294967296

/-- Right rotation of a 32-bit word by `k` positions. -/
def rotr (k n : Nat) : Nat := w32 (n / 2 ^ k + n % 2 ^ k * 2 ^ (32 - k))

/-- Logical right shift of a 32-bit word by `k` positions. -/
def shr (k n : Nat) : Nat := n / 2 ^ k

/-- Bitwise complement within 32 bits. -/
def wnot (x : Nat) : Nat := 4294967295 - x

def bigSigma0 (x : Nat) : Nat := rotr 2 x ^^^ rotr 13 x ^^^ rotr 22 x

def bigSigma1 (x : Nat) : Nat := rotr 6 x ^^^ rotr 11 x ^^^ rotr 25 x

def smallSigma0 (x : Nat) : Nat := rotr 7 x ^^^ rotr 18 x ^^^ shr 3 x

def smallSigma1 (x : Nat) : Nat := rotr 17 x ^^^ rotr 19 x ^^^ shr 10 x

def chFn (x y z : Nat) : Nat := (x &&& y) ^^^ (wnot x &&& z)

def majFn (x y z : Nat) : Nat := (x &&& y) ^^^ (x &&& z) ^^^ (y &&& z)

/-- The 64 SHA-256 round constants (FIPS 180-4), written in decimal. -/
def K256 : List Nat :=
  [1116352408, 1899447441, 3049323471, 3921009573, 961987163, 1508970993,
   2453635748, 2870763221, 3624381080, 310598401, 607225278, 1426881987,
   1925078388, 2162078206, 2614888103, 3248222580, 3835390401, 4022224774,
   264347078, 604807628, 770255983, 1249150122, 1555081692, 1996064986,
   2554220882, 2821834349, 2952996808, 3210313671, 3336571891, 3584528711,
   113926993, 338241895, 666307205, 773529912, 1294757372, 1396182291,
   1695183700, 1986661051, 2177026350, 2456956037, 2730485921, 2820302411,
   3259730800, 3345764771, 3516065817, 3600352804, 4094571909, 275423344,
   430227734, 506948616, 659060556, 883997877, 958139571, 1322822218,
   1537002063, 1747873779, 1955562222, 2024104815, 2227730452, 2361852424,
   2428436474, 2756734187, 3204031479, 3329325298]

/-- SHA-256 working state: eight 32-bit words. -/
structure Hash8 where
  a : Nat
  b : Nat
  c : Nat
  d : Nat
  e : Nat
  f : Nat
  g : Nat
  h : Nat
deriving DecidableEq, Repr

/-- The SHA-256 initial hash value (FIPS 180-4), written in decimal. -/
def H0 : Hash8 :=
  ⟨1779033703, 3144134277, 1013904242, 2773480762,
   1359893119, 2600822924, 528734635, 1541459225⟩

/-- Element of a word list at index `i`, defaulting to `0`. -/
def nthw (l : List Nat) (i : Nat) : Nat := l.getD i 0

/-- Group a byte list into big-endian 32-bit words (four bytes per word). -/
def toWords : List Nat → List Nat
  | b0 :: b1 :: b2 :: b3 :: rest =>
    (b0 * 16777216 + b1 * 65536 + b2 * 256 + b3) :: toWords rest
  | _ => []

/-- One extension step of the message schedule: append the next word. -/
def schedStep (w : List Nat) : List Nat :=
  let n := w.length
  w ++ [w32 (smallSigma1 (nthw w (n - 2)) + nthw w (n - 7) +
             smallSigma0 (nthw w (n - 15)) + nthw w (n - 16))]

/-- Extend the 16 block words to the full 64-entry message schedule. -/
def buildSchedule (w : List Nat) : List Nat := Nat.repeat schedStep 48 w

/-- One SHA-256 compression round; `kw` is the round constant plus schedule word. -/
def round256 (st : Hash8) (kw : Nat) : Hash8 :=
  let t1 := w32 (st.h + bigSigma1 st.e + chFn st.e st.f st.g + kw)
  let t2 := w32 (bigSigma0 st.a + majFn st.a st.b st.c)
  ⟨w32 (t1 + t2), st.a, st.b, st.c, w32 (st.d + t1), st.e, st.f, st.g⟩

def compressRounds (st : Hash8) : List Nat → Hash8
  | [] => st
  | kw :: rest => compressRounds (round256 st kw) rest

/-- Process one 64-byte block, updating the running hash value. -/
def compressBlock (h : Hash8) (block : List Nat) : Hash8 :=
  let ws := buildSchedule (toWords block)
  let kws := (K256.zip ws).map fun p => w32 (p.1 + p.2)
  let st := compressRounds h kws
  ⟨w32 (h.a + st.a), w32 (h.b + st.b), w32 (h.c + st.c), w32 (h.d + st.d),
   w32 (h.e + st.e), w32 (h.f + st.f), w32 (h.g + st.g), w32 (h.h + st.h)⟩

/-- Big-endian eight-byte encoding of the message bit length. -/
def lenBytes (n : Nat) : List Nat :=
  [n / 2 ^ 56 % 256, n / 2 ^ 48 % 256, n / 2 ^ 40 % 256, n / 2 ^ 32 % 256,
   n / 2 ^ 24 % 256, n / 2 ^ 16 % 256, n / 2 ^ 8 % 256, n % 256]

/-- SHA-256 padding: `0x80`, zero bytes to 56 mod 64, then the bit length. -/
def padMessage (msg : List Nat) : List Nat :=
  msg ++ [128] ++ List.replicate ((119 - msg.length % 64) % 64) 0 ++ lenBytes (8 * msg.length)

/-- Split a byte list into consecutive 64-byte blocks (auxiliary accumulator form). -/
def splitBlocksAux : List Nat → List Nat → List (List Nat)
  | _, [] => []
  | acc, b :: rest =>
    let acc2 := acc ++ [b]
    if acc2.length = 64 then acc2 :: splitBlocksAux [] rest
    else splitBlocksAux acc2 rest

/-- Big-endian four-byte encoding of a 32-bit word. -/
def wordBytes (w : Nat) : List Nat :=
  [w / 2 ^ 24 % 256, w / 2 ^ 16 % 256, w / 2 ^ 8 % 256, w % 256]

/-- The 32-byte SHA-256 digest of a byte list. -/
def sha256bytes (msg : List Nat) : List Nat :=
  let final := (splitBlocksAux [] (padMessage msg)).foldl compressBlock H0
  wordBytes final.a ++ wordBytes final.b ++ wordBytes final.c ++ wordBytes final.d ++
  wordBytes final.e ++ wordBytes final.f ++ wordBytes final.g ++ wordBytes final.h

/-! ## Hex digest and UTF-8 encoding -/

/-- The lowercase hexadecimal digit for a nibble value. -/
def hexDigitChar (n : Nat) : Char := "0123456789abcdef".data.getD n '0'

/-- Two lowercase hex characters for one byte, as in Python's `hexdigest`. -/
def byteToHex (b : Nat) : List Char := [hexDigitChar (b / 16 % 16), hexDigitChar (b % 16)]

/-- Whether a character belongs to the lowercase hexadecimal alphabet. -/
def isLowerHex (c : Char) : Bool := "0123456789abcdef".data.contains c

/-- The hex digest string (as a character list) of a byte list. -/
def hexChars : List Nat → List Char
  | [] => []
  | b :: bs => byteToHex b ++ hexChars bs

/-- UTF-8 encoding of one Unicode code point. -/
def utf8EncodeNat (c : Nat) : List Nat :=
  if c < 128 then [c]
  else if c < 2048 then [192 + c / 64, 128 + c % 64]
  else if c < 65536 then [224 + c / 4096, 128 + c / 64 % 64, 128 + c % 64]
  else [240 + c / 262144, 128 + c / 4096 % 64, 128 + c / 64 % 64, 128 + c % 64]

/-- UTF-8 byte encoding of a string, the model of Python's `str.encode()`. -/
def strToUTF8 (s : String) : List Nat :=
  s.data.foldr (fun c acc => utf8EncodeNat c.toNat ++ acc) []

/-! ## Dependency fingerprinting (`get_venv_name`) -/

/-- Lexicographic comparison of character lists by code point: the order in
which Python compares strings. -/
def lexLe : List Char → List Char → Bool
  | [], _ => true
  | _ :: _, [] => false
  | a :: as, b :: bs =>
    if a = b then lexLe as bs else decide (a.toNat < b.toNat)

/-- The string order used by Python's `sorted`. -/
def pyLe (s t : String) : Prop := lexLe s.data t.data = true

instance : DecidableRel pyLe := fun s t =>
  inferInstanceAs (Decidable (lexLe s.data t.data = true))

/-- Model of Python's `sorted` on a list of strings. -/
def pySorted (l : List String) : List String := List.insertionSort pyLe l

/-- Embedding of `get_venv_name` from `src/execution_wrapper.py`: the empty
list maps to the default venv name, otherwise the name is the fixed tag
`PyIsolated_` followed by the first 8 hex characters of the SHA-256 of the
sorted, newline-joined dependency list. -/
def get_venv_name (dependencies : List String) : String :=
  if dependencies = [] then "ComfyUI-PyIsolated"
  else
    let deps_sorted := pySorted dependencies
    let dep_string := String.intercalate "\n" deps_sorted
    let dep_hash := (hexChars (sha256bytes (strToUTF8 dep_string))).take 8
    "PyIsolated_" ++ String.mk dep_hash

/-- The fingerprint algorithm as worded by the spec (§4.1), for comparison
with the embedding of the source: empty sequence to the fixed sentinel,
otherwise lexicographically sort (here with a merge sort, independent of the
source's sort routine), join with newline separators, SHA-256 the UTF-8
bytes, and prefix the first 8 hex characters with the namespace tag. -/
def fingerprintSpec (deps : List String) : String :=
  if deps.isEmpty then "ComfyUI-PyIsolated"
  else
    "PyIsolated_" ++
      String.mk ((hexChars (sha256bytes (strToUTF8
        (String.intercalate "\n" (deps.mergeSort fun a b => decide (pyLe a b)))))).take 8)

/-- Whether a string has the `Error: ...` shape required of failure results,
i.e. starts with the `Error: ` tag. -/
def listStartsWith : List Char → List Char → Bool
  | [], _ => true
  | _ :: _, [] => false
  | a :: as, b :: bs => if a = b then listStartsWith as bs else false

def isErrorTagged (s : String) : Bool := listStartsWith "Error: ".data s.data

/-! ## Data model for executed values -/

/-- Opaque Python values crossing the execution boundary, as far as the core
inspects them. -/
inductive PyVal where
  | str (s : String)
  | int (n : Int)
  | none
deriving DecidableEq, Repr

/-- Model of Python's `str()` on the values above. -/
def pyStr : PyVal → String
  | .str s => s
  | .int n => toString n
  | .none => "None"

/-- Outcome of `exec(code, namespace)`: the text printed to the redirected
standard output before the end (or before the exception point) and either
normal completion with the optional `result` binding or an exception with
its message. -/
inductive ExecResult where
  | ok (printed : String) (result : Option PyVal)
  | raised (printed : String) (msg : String)
deriving DecidableEq

/-! ## Subprocess mode (`run_code_in_venv`) -/

/-- A filesystem path, as a list of segments. -/
abbrev FsPath := List String

/-- Result of `subprocess.run` on the driver. -/
inductive ProcResult where
  | completed (stdout stderr : String)
  | timedOut
  | raised (msg : String)
deriving DecidableEq

/-- Result of `json.loads` on the child's stdout followed by extraction of
the three protocol fields: a parse failure (`json.JSONDecodeError`),
parseable JSON that does not carry the fields (the subsequent subscript
raises, caught by the generic handler), or the three fields. -/
inductive ParsedStdout where
  | notJson (errMsg : String)
  | jsonNoFields (errMsg : String)
  | jsonFields (result stdout : String) (exit_code : Int)
deriving DecidableEq

/-- External behaviour feeding one `run_code_in_venv` call: whether spawning
raised some non-timeout exception, how long the child would run, what it
wrote to its standard streams, and how `json.loads` reads any given text. -/
structure SubprocessWorld where
  spawnFailure : Option String
  childRunTime : Nat
  childStdout : String
  childStderr : String
  parse : String → ParsedStdout

/-- The fixed wall-clock budget passed to `subprocess.run` (seconds). -/
def TIMEOUT_SECONDS : Nat := 30

/-- Model of `subprocess.run` with a timeout: a spawn failure raises, a child
needing more than the budget raises `TimeoutExpired`, otherwise the child's
streams are captured. -/
def subprocessRun (timeout : Nat) (w : SubprocessWorld) : ProcResult :=
  match w.spawnFailure with
  | some msg => .raised msg
  | Option.none =>
    if timeout < w.childRunTime then .timedOut
    else .completed w.childStdout w.childStderr

/-- Embedding of `run_code_in_venv` from `src/execution_wrapper.py`.  The
code and input files and the driver text are routed through the world, so
the parameters `code`, `inputs` and `venv_path` influence the outcome only
through `w`. -/
def run_code_in_venv (w : SubprocessWorld) (code : String)
    (inputs : List (String × PyVal)) (venv_path : FsPath) : String × String × Int :=
  match subprocessRun TIMEOUT_SECONDS w with
  | .completed stdout stderr =>
    match w.parse stdout with
    | .jsonFields r s e => (r, s, e)
    | .notJson errMsg =>
      ("Error: " ++ (if stderr = "" then errMsg else stderr), stdout, 1)
    | .jsonNoFields errMsg => ("Error: " ++ errMsg, "", 1)
  | .timedOut => ("Error: Execution timeout (30s)", "", 1)
  | .raised msg => ("Error: " ++ msg, "", 1)

/-! ## Environment provisioner (`ensure_venv`) -/

/-- Side effects the provisioner can perform, recorded as a trace. -/
inductive VenvAction where
  | madeRootDir (root : FsPath)
  | createdVenv (p : FsPath)
  | ranPipInstall (dep : String)
deriving DecidableEq

/-- External behaviour feeding `ensure_venv`: the directory-existence probe,
the venv-creation subprocess and the per-dependency `pip install`
subprocess, the latter two raising `CalledProcessError` (carried as the
`Except` error message) on a non-zero exit. -/
structure EnvWorld where
  pathExists : FsPath → Bool
  createVenv : FsPath → Except String Unit
  pipInstall : String → Except String Unit

/-- The sequential install loop of `ensure_venv`: run `pip install` for each
dependency in order, re-raising the first failure.  Returns the outcome and
the trace of attempted installs. -/
def installLoop (w : EnvWorld) : List String → Except String Unit × List VenvAction
  | [] => (.ok (), [])
  | dep :: rest =>
    match w.pipInstall dep with
    | .ok () =>
      let r := installLoop w rest
      (r.1, .ranPipInstall dep :: r.2)
    | .error e => (.error e, [.ranPipInstall dep])

/-- Embedding of `ensure_venv` from `src/execution_wrapper.py`: reuse the
directory `venv_root/venv_name` if it exists, otherwise make the root,
create a fresh venv there and install the dependencies sequentially,
propagating any failure.  The second component records the side effects
performed. -/
def ensure_venv (w : EnvWorld) (venv_name : String) (dependencies : List String)
    (venv_root : FsPath) : Except String FsPath × List VenvAction :=
  let venv_path := venv_root ++ [venv_name]
  if w.pathExists venv_path then (.ok venv_path, [])
  else
    match w.createVenv venv_path with
    | .error e => (.error e, [.madeRootDir venv_root, .createdVenv venv_path])
    | .ok () =>
      let r := installLoop w dependencies
      (r.1.map fun _ => venv_path,
       .madeRootDir venv_root :: .createdVenv venv_path :: r.2)

/-! ## Public entry point (`run_code_safe`) -/

/-- What the process-global `sys.stdout` cell points to. -/
inductive StdoutTarget (σ : Type) where
  | external (s : σ)
  | captureBuffer
deriving DecidableEq

/-- External behaviour feeding one `run_code_direct` call: the
`_is_package_installed` probe, the in-process `pip install` subprocess
(error carries the installer's stderr), and the behaviour of `exec` on the
supplied code. -/
structure DirectWorld where
  probe : String → Bool
  pipInstallDirect : String → Except String Unit
  exec : ExecResult

/-- The dependency pre-install loop of `run_code_direct`: skip cached or
importable packages, otherwise install; the first install failure aborts
with the failing dependency and the installer's stderr. -/
def installDirectLoop (w : DirectWorld) : List String → Except (String × String) Unit
  | [] => .ok ()
  | dep :: rest =>
    if w.probe dep then installDirectLoop w rest
    else
      match w.pipInstallDirect dep with
      | .ok () => installDirectLoop w rest
      | .error stderr => .error (dep, stderr)

/-- Embedding of `run_code_direct` from `src/execution_wrapper.py`.  The
second component of the value is the final content of the `sys.stdout`
cell, whose initial content is the last argument; the `finally` block of
the source restores the saved original on every path that redirected it,
and the dependency-failure early return happens before any redirection. -/
def run_code_direct {σ : Type} (w : DirectWorld) (code : String)
    (inputs : List (String × PyVal)) (dependencies : List String)
    (sysStdout : StdoutTarget σ) : (PyVal × String × Int) × StdoutTarget σ :=
  match installDirectLoop w dependencies with
  | .error (dep, stderr) =>
    ((.str ("Error installing " ++ dep ++ ": " ++ stderr), "", 1), sysStdout)
  | .ok () =>
    let original_stdout := sysStdout
    -- within the try block, sys.stdout := StdoutTarget.captureBuffer
    match w.exec with
    | .ok printed res => ((res.getD (.str ""), printed, 0), original_stdout)
    | .raised printed msg => ((.str ("Error: " ++ msg), printed, 1), original_stdout)

/-! ## Concrete worlds for closed instantiations -/

/-- A parse oracle that reads no text as valid JSON. -/
def parseNone : String → ParsedStdout :=
  fun _ => .notJson "Expecting value: line 1 column 1 (char 0)"

/-- A child that needs 31 seconds of wall-clock time. -/
def subWorldSleepy : SubprocessWorld :=
  { spawnFailure := Option.none, childRunTime := 31, childStdout := "",
    childStderr := "", parse := parseNone }

/-- A child that prints garbage instead of the JSON envelope and writes a
traceback to stderr. -/
def subWorldGarbage : SubprocessWorld :=
  { spawnFailure := Option.none, childRunTime := 1, childStdout := "oops, not json",
    childStderr := "Traceback: ValueError", parse := parseNone }

/-- An environment world in which every probed directory already exists. -/
def envWorldAllExist : EnvWorld :=
  { pathExists := fun _ => true,
    createVenv := fun _ => .ok (),
    pipInstall := fun _ => .ok () }

/-- An environment world with no directories, successful venv creation, and
an installer that fails exactly on `badpkg` with a diagnostic. -/
def envWorldBadPkg : EnvWorld :=
  { pathExists := fun _ => false,
    createVenv := fun _ => .ok (),
    pipInstall := fun dep =>
      if dep = "badpkg" then .error "No matching distribution found for badpkg"
      else .ok () }

/-- A direct-mode world in which `exec` of the code binds `result` to the
integer 2 and prints nothing, the behaviour of `result = 1 + 1`. -/
def directWorldOnePlusOne : DirectWorld :=
  { probe := fun _ => true, pipInstallDirect := fun _ => .ok (),
    exec := .ok "" (some (.int 2)) }

/-- A direct-mode world in which `exec` prints `partial` and then raises
with message `boom`. -/
def directWorldBoom : DirectWorld :=
  { probe := fun _ => true, pipInstallDirect := fun _ => .ok (),
    exec := .raised "partial" "boom" }

theorem charToNat_inj {a b : Char} (h : a.toNat = b.toNat) : a = b := by
  have h2 := congrArg Char.ofNat h
  rwa [Char.ofNat_toNat, Char.ofNat_toNat] at h2

theorem lexLe_total : ∀ a b : List Char, lexLe a b = true ∨ lexLe b a = true
  | [], _ => Or.inl rfl
  | _ :: _, [] => Or.inr rfl
  | a :: as, b :: bs => by
    by_cases hab : a = b
    · subst hab
      simpa [lexLe] using lexLe_total as bs
    · have hba : ¬ b = a := fun h => hab h.symm
      have hnn : a.toNat ≠ b.toNat := fun h => hab (charToNat_inj h)
      simp only [lexLe, if_neg hab, if_neg hba, decide_eq_true_eq]
      omega

theorem lexLe_trans : ∀ a b c : List Char,
    lexLe a b = true → lexLe b c = true → lexLe a c = true
  | [], _, _, _, _ => rfl
  | _ :: _, [], _, hab, _ => by simp [lexLe] at hab
  | _ :: _, _ :: _, [], _, hbc => by simp [lexLe] at hbc
  | x :: xs, y :: ys, z :: zs, hab, hbc => by
    simp only [lexLe] at hab hbc ⊢
    by_cases hxy : x = y <;> by_cases hyz : y = z
    · subst hxy; subst hyz
      rw [if_pos rfl] at hab hbc ⊢
      exact lexLe_trans xs ys zs hab hbc
    · subst hxy
      rw [if_pos rfl] at hab
      rw [if_neg hyz] at hbc ⊢
      exact hbc
    · subst hyz
      rw [if_pos rfl] at hbc
      rw [if_neg hxy] at hab ⊢
      exact hab
    · rw [if_neg hxy] at hab
      rw [if_neg hyz] at hbc
      simp only [decide_eq_true_eq] at hab hbc
      by_cases hxz : x = z
      · exfalso
        have h3 := congrArg Char.toNat hxz
        omega
      · rw [if_neg hxz]
        simp only [decide_eq_true_eq]
        omega

theorem lexLe_antisymm : ∀ a b : List Char,
    lexLe a b = true → lexLe b a = true → a = b
  | [], [], _, _ => rfl
  | [], _ :: _, _, hba => by simp [lexLe] at hba
  | _ :: _, [], hab, _ => by simp [lexLe] at hab
  | a :: as, b :: bs, hab, hba => by
    by_cases h : a = b
    · subst h
      simp only [lexLe, if_pos rfl] at hab hba
      rw [lexLe_antisymm as bs hab hba]
    · have h2 : ¬ b = a := fun hh => h hh.symm
      simp only [lexLe, if_neg h, if_neg h2, decide_eq_true_eq] at hab hba
      omega

/-- Sorting with `pySorted` depends only on the multiset of entries. -/
theorem pySorted_perm_eq {l₁ l₂ : List String} (h : l₁.Perm l₂) :
    pySorted l₁ = pySorted l₂ := by
  haveI : IsTotal String pyLe := ⟨fun s t => lexLe_total s.data t.data⟩
  haveI : IsTrans String pyLe := ⟨fun _ _ _ h1 h2 => lexLe_trans _ _ _ h1 h2⟩
  haveI : IsAntisymm String pyLe :=
    ⟨fun _ _ h1 h2 => String.ext (lexLe_antisymm _ _ h1 h2)⟩
  exact List.eq_of_perm_of_sorted
    ((List.perm_insertionSort pyLe l₁).trans (h.trans (List.perm_insertionSort pyLe l₂).symm))
    (List.sorted_insertionSort pyLe l₁) (List.sorted_insertionSort pyLe l₂)

/-- `get_venv_name` on a non-empty list, with the branch taken. -/
theorem get_venv_name_cons (a : String) (l : List String) :
    get_venv_name (a :: l)
      = "PyIsolated_" ++ String.mk ((hexChars (sha256bytes (strToUTF8
          (String.intercalate "\n" (pySorted (a :: l)))))).take 8) := by
  simp [get_venv_name]

/-! ## Helper lemmas on hex digests -/

theorem hexDigit_mem_alphabet : ∀ n : Nat, n < 16 → isLowerHex (hexDigitChar n) = true := by
  decide

theorem byteToHex_mem (b : Nat) : ∀ c ∈ byteToHex b, isLowerHex c = true := by
  intro c hc
  rcases List.mem_cons.mp hc with rfl | hc2
  · exact hexDigit_mem_alphabet _ (Nat.mod_lt _ (by omega))
  rcases List.mem_cons.mp hc2 with rfl | hc3
  · exact hexDigit_mem_alphabet _ (Nat.mod_lt _ (by omega))
  · simp at hc3

theorem hexChars_mem : ∀ bs : List Nat, ∀ c ∈ hexChars bs, isLowerHex c = true
  | [] => by intro c hc; simp [hexChars] at hc
  | b :: bs => by
    intro c hc
    rw [hexChars] at hc
    rcases List.mem_append.mp hc with h | h
    · exact byteToHex_mem b c h
    · exact hexChars_mem bs c h

theorem hexChars_length : ∀ bs : List Nat, (hexChars bs).length = 2 * bs.length
  | [] => rfl
  | b :: bs => by
    rw [hexChars, List.length_append, hexChars_length bs]
    simp only [byteToHex, List.length_cons, List.length_nil, List.length_singleton]
    omega

theorem sha256bytes_length (msg : List Nat) : (sha256bytes msg).length = 32 := by
  simp [sha256bytes, wordBytes]

/-! ## Helper lemmas on the failure-result shape -/

theorem listStartsWith_self_append : ∀ p s : List Char, listStartsWith p (p ++ s) = true
  | [], _ => rfl
  | a :: as, s => by
    simp only [List.cons_append, listStartsWith, if_pos rfl]
    exact listStartsWith_self_append as s

theorem isErrorTagged_append (m : String) : isErrorTagged ("Error: " ++ m) = true := by
  rw [isErrorTagged, String.data_append]
  exact listStartsWith_self_append _ _

/-! ## Claim theorems -/

/-- C2: the fingerprint function is pure (it is embedded as a total Lean
function of its argument alone) and computes exactly the spec's algorithm:
the fixed sentinel for the empty sequence, and otherwise the namespace tag
followed by the first 8 hex characters of the SHA-256 of the UTF-8 bytes of
the newline-join of the lexicographically sorted entries, as expressed by
`fingerprintSpec`. -/
theorem C2_fingerprint_algorithm :
    get_venv_name [] = "ComfyUI-PyIsolated"
    ∧ ∀ deps : List String, get_venv_name deps = fingerprintSpec deps := by
  haveI : IsTotal String pyLe := ⟨fun s t => lexLe_total s.data t.data⟩
  haveI : IsTrans String pyLe := ⟨fun _ _ _ h1 h2 => lexLe_trans _ _ _ h1 h2⟩
  haveI : IsAntisymm String pyLe :=
    ⟨fun _ _ h1 h2 => String.ext (lexLe_antisymm _ _ h1 h2)⟩
  refine ⟨rfl, fun deps => ?_⟩
  cases deps with
  | nil => rfl
  | cons a l =>
    rw [get_venv_name_cons]
    simp only [fingerprintSpec, List.isEmpty_cons, Bool.false_eq_true, if_false,
      List.mergeSort_eq_insertionSort pyLe]
    rfl

set_option maxRecDepth 1000000 in
/-- C3: the fingerprint is invariant under permutation of the dependency
list; in particular `["a", "b"]` and `["b", "a"]` agree, while duplicates
are not collapsed: `["numpy", "numpy"]` and `["numpy"]` hash differently. -/
theorem C3_order_independence :
    (∀ l₁ l₂ : List String, l₁.Perm l₂ → get_venv_name l₁ = get_venv_name l₂)
    ∧ get_venv_name ["a", "b"] = get_venv_name ["b", "a"]
    ∧ get_venv_name ["numpy", "numpy"] ≠ get_venv_name ["numpy"] := by
  refine ⟨fun l₁ l₂ h => ?_, by decide, by decide⟩
  cases l₁ with
  | nil => rw [h.symm.eq_nil]
  | cons a l =>
    have hne₂ : l₂ ≠ [] := by
      intro hh
      subst hh
      exact List.cons_ne_nil a l h.eq_nil
    obtain ⟨b, m, rfl⟩ : ∃ b m, l₂ = b :: m := by
      cases l₂ with
      | nil => exact absurd rfl hne₂
      | cons b m => exact ⟨b, m, rfl⟩
    rw [get_venv_name_cons, get_venv_name_cons, pySorted_perm_eq h]

set_option maxRecDepth 1000000 in
/-- C3 witness: the permutation clause applied at the concrete pair
`["requests", "numpy"]` and `["numpy", "requests"]`. -/
theorem C3_order_independence_witness :
    get_venv_name ["requests", "numpy"] = get_venv_name ["numpy", "requests"] :=
  C3_order_independence.1 ["requests", "numpy"] ["numpy", "requests"]
    (List.Perm.swap "numpy" "requests" [])

/-- C10: for every non-empty dependency list the fingerprint is the tag
`PyIsolated_` followed by exactly 8 lowercase hexadecimal characters, and
is therefore never the default-environment identifier
`ComfyUI-PyIsolated`. -/
theorem C10_nonempty_shape (deps : List String) (hne : deps ≠ []) :
    (∃ tail : List Char,
      get_venv_name deps = "PyIsolated_" ++ String.mk tail
      ∧ tail.length = 8 ∧ ∀ c ∈ tail, isLowerHex c = true)
    ∧ get_venv_name deps ≠ "ComfyUI-PyIsolated" := by
  obtain ⟨a, l, rfl⟩ : ∃ a l, deps = a :: l := by
    cases deps with
    | nil => exact absurd rfl hne
    | cons a l => exact ⟨a, l, rfl⟩
  have hlen : ((hexChars (sha256bytes (strToUTF8
      (String.intercalate "\n" (pySorted (a :: l)))))).take 8).length = 8 := by
    rw [List.length_take, hexChars_length, sha256bytes_length]
    omega
  refine ⟨⟨_, get_venv_name_cons a l, hlen, ?_⟩, ?_⟩
  · intro c hc
    exact hexChars_mem _ c (List.take_subset _ _ hc)
  · rw [get_venv_name_cons a l]
    intro hcontra
    have hlens := congrArg String.length hcontra
    rw [String.length_append] at hlens
    have h1 : ("PyIsolated_").length = 11 := rfl
    have h2 : (String.mk ((hexChars (sha256bytes (strToUTF8
        (String.intercalate "\n" (pySorted (a :: l)))))).take 8)).length = 8 := hlen
    have h3 : ("ComfyUI-PyIsolated").length = 18 := rfl
    omega

set_option maxRecDepth 1000000 in
/-- C10 witness: the shape clause instantiated at the concrete singleton
list `["numpy"]`, whose fingerprint is `PyIsolated_73dd0baf`. -/
theorem C10_nonempty_shape_witness :
    get_venv_name ["numpy"] = "PyIsolated_73dd0baf"
    ∧ get_venv_name ["numpy"] ≠ "ComfyUI-PyIsolated" :=
  ⟨by decide, (C10_nonempty_shape ["numpy"] (by decide)).2⟩

/-- Helper: a successful provisioning call always returns the path
`venv_root/venv_name`. -/
theorem ensure_venv_ok_path {w : EnvWorld} {name : String} {deps : List String}
    {root : FsPath} {p : FsPath}
    (h : (ensure_venv w name deps root).1 = Except.ok p) : p = root ++ [name] := by
  simp only [ensure_venv] at h
  split at h
  · simp only at h
    exact (Except.ok.injEq _ _ ▸ h).symm
  · split at h
    · simp at h
    · cases hil : (installLoop w deps).1 with
      | ok u =>
        rw [hil] at h
        simp only [Except.map] at h
        exact (Except.ok.injEq _ _ ▸ h).symm
      | error e =>
        rw [hil] at h
        simp [Except.map] at h

/-- C4: whenever the directory `root/fingerprint` already exists, the
provisioner returns that path immediately with an empty side-effect trace
(no venv creation, no installation); consequently a second call after a
successful first call with the same fingerprint and root returns the same
path and performs no installation. -/
theorem C4_idempotent_reuse :
    (∀ (w : EnvWorld) (name : String) (deps : List String) (root : FsPath),
      w.pathExists (root ++ [name]) = true →
      ensure_venv w name deps root = (.ok (root ++ [name]), []))
    ∧ (∀ (w w2 : EnvWorld) (name : String) (deps deps2 : List String)
        (root : FsPath) (p : FsPath),
      (ensure_venv w name deps root).1 = .ok p →
      w2.pathExists p = true →
      ensure_venv w2 name deps2 root = (.ok p, [])) := by
  constructor
  · intro w name deps root hex
    simp [ensure_venv, hex]
  · intro w w2 name deps deps2 root p hok hex
    have hp := ensure_venv_ok_path hok
    subst hp
    simp [ensure_venv, hex]

/-- C4 witness: the reuse clause at a concrete world whose directories all
exist. -/
theorem C4_idempotent_reuse_witness :
    envWorldAllExist.pathExists (["root"] ++ ["ComfyUI-PyIsolated"]) = true
    ∧ ensure_venv envWorldAllExist "ComfyUI-PyIsolated" ["numpy"] ["root"]
        = (.ok (["root"] ++ ["ComfyUI-PyIsolated"]), []) :=
  ⟨rfl, C4_idempotent_reuse.1 envWorldAllExist "ComfyUI-PyIsolated" ["numpy"] ["root"] rfl⟩

/-- Helper: the install loop attempts the entries in order and stops at the
first failing one, propagating its diagnostic. -/
theorem installLoop_fail (w : EnvWorld) (d e : String) (post : List String)
    (hd : w.pipInstall d = .error e) :
    ∀ pre : List String, (∀ x ∈ pre, w.pipInstall x = .ok ()) →
      installLoop w (pre ++ d :: post)
        = (.error e, (pre ++ [d]).map VenvAction.ranPipInstall)
  | [] => by
    intro _
    simp [installLoop, hd]
  | x :: pre => by
    intro hpre
    have hx : w.pipInstall x = .ok () := hpre x (List.mem_cons_self x pre)
    have ih := installLoop_fail w d e post hd pre
      (fun y hy => hpre y (List.mem_cons_of_mem x hy))
    simp [installLoop, hx, ih]

/-- C5: on a fresh environment the provisioner installs the dependencies
sequentially in the given order, and the first failing install fails the
whole call with the installer's diagnostic, without attempting the
remaining entries: with `pre` succeeding and `d` failing, the trace records
the creation steps and exactly the installs of `pre` and `d`, never the
entries of `post`, and the call's outcome is the installer's error. -/
theorem C5_sequential_fail_fast (w : EnvWorld) (name : String) (root : FsPath)
    (pre post : List String) (d e : String)
    (hex : w.pathExists (root ++ [name]) = false)
    (hcv : w.createVenv (root ++ [name]) = .ok ())
    (hpre : ∀ x ∈ pre, w.pipInstall x = .ok ())
    (hd : w.pipInstall d = .error e) :
    ensure_venv w name (pre ++ d :: post) root
      = (.error e,
         .madeRootDir root :: .createdVenv (root ++ [name])
           :: (pre ++ [d]).map VenvAction.ranPipInstall) := by
  simp [ensure_venv, hex, hcv, installLoop_fail w d e post hd pre hpre, Except.map]

/-- C5 witness: a concrete provisioning in which `numpy` installs, `badpkg`
fails, and `requests` is never attempted. -/
theorem C5_sequential_fail_fast_witness :
    ensure_venv envWorldBadPkg "PyIsolated_0a1b2c3d" ["numpy", "badpkg", "requests"] ["root"]
      = (.error "No matching distribution found for badpkg",
         .madeRootDir ["root"] :: .createdVenv (["root"] ++ ["PyIsolated_0a1b2c3d"])
           :: (["numpy"] ++ ["badpkg"]).map VenvAction.ranPipInstall) :=
  C5_sequential_fail_fast envWorldBadPkg "PyIsolated_0a1b2c3d" ["root"]
    ["numpy"] ["requests"] "badpkg" "No matching distribution found for badpkg"
    rfl rfl (by intro x hx; simp at hx; subst hx; rfl) rfl

/-- C6: in subprocess mode the wait is bounded by the fixed 30-second
budget; whenever the child needs more wall-clock time than that (and
spawning itself did not fail), the outcome is the fixed timeout failure
with empty captured output and no partial result. -/
theorem C6_subprocess_timeout (w : SubprocessWorld) (code : String)
    (inputs : List (String × PyVal)) (venv_path : FsPath)
    (hs : w.spawnFailure = Option.none) (ht : 30 < w.childRunTime) :
    run_code_in_venv w code inputs venv_path
      = ("Error: Execution timeout (30s)", "", 1) := by
  simp [run_code_in_venv, subprocessRun, hs, TIMEOUT_SECONDS, ht]

/-- C6 witness: a child needing 31 seconds yields the timeout outcome. -/
theorem C6_subprocess_timeout_witness :
    subWorldSleepy.spawnFailure = Option.none
    ∧ 30 < subWorldSleepy.childRunTime
    ∧ run_code_in_venv subWorldSleepy "import time; time.sleep(60)" []
        (["root"] ++ ["ComfyUI-PyIsolated"])
        = ("Error: Execution timeout (30s)", "", 1) :=
  ⟨rfl, by decide,
    C6_subprocess_timeout subWorldSleepy "import time; time.sleep(60)" []
      (["root"] ++ ["ComfyUI-PyIsolated"]) rfl (by decide)⟩

/-- C7: in subprocess mode, when the child's stdout is not parseable JSON,
the outcome is a failure whose diagnostic embeds the child's raw stderr
(or, when stderr is empty, the parse-error message) and whose captured
output is the child's raw stdout text. -/
theorem C7_transport_failure (w : SubprocessWorld) (code : String)
    (inputs : List (String × PyVal)) (venv_path : FsPath) (errMsg : String)
    (hs : w.spawnFailure = Option.none) (ht : ¬ 30 < w.childRunTime)
    (hp : w.parse w.childStdout = .notJson errMsg) :
    run_code_in_venv w code inputs venv_path
      = ("Error: " ++ (if w.childStderr = "" then errMsg else w.childStderr),
         w.childStdout, 1) := by
  simp [run_code_in_venv, subprocessRun, hs, TIMEOUT_SECONDS, ht, hp]

/-- C7 witness: a child printing non-JSON with a traceback on stderr. -/
theorem C7_transport_failure_witness :
    subWorldGarbage.parse subWorldGarbage.childStdout
      = ParsedStdout.notJson "Expecting value: line 1 column 1 (char 0)"
    ∧ run_code_in_venv subWorldGarbage "print(42)" []
        (["root"] ++ ["ComfyUI-PyIsolated"])
        = ("Error: Traceback: ValueError", "oops, not json", 1) := by
  refine ⟨rfl, ?_⟩
  have h := C7_transport_failure subWorldGarbage "print(42)" []
    (["root"] ++ ["ComfyUI-PyIsolated"]) "Expecting value: line 1 column 1 (char 0)"
    rfl (by decide) rfl
  rw [if_neg (by decide)] at h
  exact h

/-- C8: in direct mode, when executing the code raises an exception with
message `msg` after printing `printed`, the outcome is a failure whose
result is the string `Error: ` followed by `msg` and whose captured output
is exactly the text printed before the exception point; moreover the
process-global stdout cell is restored to its initial content on every
path (dependency failure, success, or exception). -/
theorem C8_direct_exception :
    (∀ (σ : Type) (w : DirectWorld) (code : String) (inputs : List (String × PyVal))
        (deps : List String) (s : StdoutTarget σ) (printed msg : String),
      installDirectLoop w deps = .ok () →
      w.exec = .raised printed msg →
      run_code_direct w code inputs deps s
        = ((.str ("Error: " ++ msg), printed, 1), s))
    ∧ (∀ (σ : Type) (w : DirectWorld) (code : String) (inputs : List (String × PyVal))
        (deps : List String) (s : StdoutTarget σ),
      (run_code_direct w code inputs deps s).2 = s) := by
  constructor
  · intro σ w code inputs deps s printed msg hloop hexec
    simp [run_code_direct, hloop, hexec]
  · intro σ w code inputs deps s
    cases hl : installDirectLoop w deps with
    | error pe =>
      obtain ⟨dep, stderr⟩ := pe
      simp [run_code_direct, hl]
    | ok u =>
      cases u
      cases hexec : w.exec with
      | ok printed res => simp [run_code_direct, hl, hexec]
      | raised printed msg => simp [run_code_direct, hl, hexec]

/-- C8 witness: code printing `partial` and raising with message `boom`
yields `Error: boom` with the partial output, and the stdout cell ends as
it began. -/
theorem C8_direct_exception_witness :
    installDirectLoop directWorldBoom [] = .ok ()
    ∧ directWorldBoom.exec = ExecResult.raised "partial" "boom"
    ∧ run_code_direct directWorldBoom "print(...); raise RuntimeError" [] []
        (StdoutTarget.external 0)
        = ((.str "Error: boom", "partial", 1), StdoutTarget.external 0) :=
  ⟨rfl, rfl,
    C8_direct_exception.1 Nat directWorldBoom "print(...); raise RuntimeError" [] []
      (StdoutTarget.external 0) "partial" "boom" rfl rfl⟩

/-- C9 counterexample: direct-mode execution of `result = 1 + 1` returns
the raw integer value 2 in the result field, which is not the string `2`
the claim asserts (direct mode, unlike the subprocess driver, does not
stringify the result binding). -/
theorem C9_counterexample :
    (run_code_direct directWorldOnePlusOne "result = 1 + 1" [] []
        (StdoutTarget.external 0)).1 = (PyVal.int 2, "", 0)
    ∧ PyVal.int 2 ≠ PyVal.str "2" :=
  ⟨rfl, by decide⟩

/-- C9 (amended): direct-mode execution of `result = 1 + 1` with empty
inputs and no dependencies yields the integer value 2 (whose `str()`
rendering is `2`) as the result, empty captured output and success status,
and leaves the stdout cell as it began. -/
theorem C9_direct_success (σ : Type) (w : DirectWorld) (s : StdoutTarget σ)
    (hx : w.exec = .ok "" (some (.int 2))) :
    (run_code_direct w "result = 1 + 1" [] [] s).1 = (PyVal.int 2, "", 0)
    ∧ pyStr (PyVal.int 2) = "2"
    ∧ (run_code_direct w "result = 1 + 1" [] [] s).2 = s := by
  refine ⟨?_, by decide, ?_⟩ <;> simp [run_code_direct, installDirectLoop, hx]

/-- C9 witness: the amended statement at the concrete world realizing the
Python semantics of `result = 1 + 1`. -/
theorem C9_direct_success_witness :
    directWorldOnePlusOne.exec = ExecResult.ok "" (some (PyVal.int 2))
    ∧ (run_code_direct directWorldOnePlusOne "result = 1 + 1" [] []
        (StdoutTarget.external 0)).1 = (PyVal.int 2, "", 0) :=
  ⟨rfl, (C9_direct_success Nat directWorldOnePlusOne (StdoutTarget.external 0) rfl).1⟩

end PyIsolated
